import Mathlib

/-!
Shallow embedding of `src/tqftpserv.c` (the TFTP-over-QRTR file server) and
verification of the specification's claims about its transfer engine.

Modelling conventions:
* Machine integers are `Nat`/`Int`; wire truncation to `uint16_t` is written
  `% 65536` where the source stores into a 16-bit field.
* File I/O always succeeds: a readable file is modelled by its length
  `fileLen`, and `pread(fd, buf, count, offset)` returns
  `min count (fileLen - offset)` bytes (0 at or past end of file).
* `send` on a connected datagram socket succeeds and returns the number of
  bytes handed to it (header plus payload).
* Datagram byte-level parsing sits above this model: handlers receive the
  already-decoded opcode and block-number fields.  Option strings are
  modelled as `(key, value)` pairs with the nonnegative integer value that
  `atoi` produced.
-/

namespace Tqftpserv

/-- Opcode constants (tqftpserv.c lines 22-29). -/
def OP_RRQ : Nat := 1

/-- Opcode 2: write request. -/
def OP_WRQ : Nat := 2

/-- Opcode 3: data block. -/
def OP_DATA : Nat := 3

/-- Opcode 4: acknowledgement. -/
def OP_ACK : Nat := 4

/-- Opcode 5: error. -/
def OP_ERROR : Nat := 5

/-- Opcode 6: option acknowledgement. -/
def OP_OACK : Nat := 6

/-- Per-transfer state, `struct tftp_client` (lines 35-50).  `sq_node` and
`sq_port` are the fields of the peer address `sq`; the socket and file
descriptors are implicit (the model tracks what is sent on the transfer
socket and written to the file). -/
structure tftp_client where
  sq_node : Nat
  sq_port : Nat
  blksize : Nat
  rsize : Nat
  wsize : Nat
  timeoutms : Nat
  seek : Nat
  deriving DecidableEq

/-- Bytes returned by `pread(fd, buf, count, offset)` on a file holding
`fileLen` bytes: `min count (fileLen - offset)`, which is 0 at or past end
of file (tqftpserv.c line 72). -/
def pread_len (fileLen count offset : Nat) : Nat := min count (fileLen - offset)

/-- `tftp_send_data` (lines 55-100).  Reads up to `blksize` bytes at
`offset`, then sends a DATA packet whose block field is the low 16 bits of
`block`.  If `response_size` is nonzero the payload is capped at exactly
`response_size` bytes, and the call fails with `-EINVAL` (modelled `none`)
when fewer bytes than that were read (lines 82-89); `response_size = 0`
means "no cap" and the whole read is sent (line 91).  On success the result
is `(wire block, payload length, send return)` where the send return is
`4 + payload` (header plus payload, line 95). -/
def tftp_send_data (blksize fileLen : Nat) (block offset response_size : Nat) :
    Option (Nat × Nat × Nat) :=
  let len := pread_len fileLen blksize offset
  if response_size ≠ 0 then
    if 4 + response_size > 4 + len then
      none
    else
      some (block % 65536, response_size, 4 + response_size)
  else
    some (block % 65536, len, 4 + len)

/-- ASCII lower-casing of one character, as C `tolower` does for the
`strcasecmp(mode, "octet")` check (lines 270, 357). -/
def ascii_lower (ch : Char) : Char :=
  if ch.isUpper then Char.ofNat (ch.toNat + 32) else ch

/-- `strcasecmp(mode, "octet") == 0` (lines 270, 357). -/
def mode_is_octet (mode : String) : Bool :=
  mode.data.map ascii_lower == "octet".data

/-- Parsed option values, with the initial defaults of `handle_rrq`
(lines 251-256) and `handle_wrq` (lines 342-347): `blksize = 512`,
`tsize = -1` (not requested), `wsize = 0`, `timeoutms = 1000`, `rsize = 0`,
`seek = 0`. -/
structure ReqOptions where
  blksize : Nat
  tsize : Int
  wsize : Nat
  timeoutms : Nat
  rsize : Nat
  seek : Nat
  deriving DecidableEq

/-- The option defaults shared by `handle_rrq` and `handle_wrq`. -/
def defaultReqOptions : ReqOptions :=
  { blksize := 512, tsize := -1, wsize := 0, timeoutms := 1000, rsize := 0, seek := 0 }

/-- One iteration of the `parse_options` loop body (lines 226-240): known
keys overwrite the corresponding field, unknown keys are ignored. -/
def applyOption (r : ReqOptions) (kv : String × Nat) : ReqOptions :=
  if kv.1 = "blksize" then { r with blksize := kv.2 }
  else if kv.1 = "timeoutms" then { r with timeoutms := kv.2 }
  else if kv.1 = "tsize" then { r with tsize := (kv.2 : Int) }
  else if kv.1 = "rsize" then { r with rsize := kv.2 }
  else if kv.1 = "wsize" then { r with wsize := kv.2 }
  else if kv.1 = "seek" then { r with seek := kv.2 }
  else r

/-- `parse_options` (lines 202-242) over the decoded `(key, value)` pairs,
starting from the handler's defaults. -/
def parse_options (opts : List (String × Nat)) : ReqOptions :=
  opts.foldl applyOption defaultReqOptions

/-- `tftp_send_oack` (lines 113-179): builds the OACK option list in source
order.  A `none` argument is a NULL pointer (option omitted); `tsize` is
additionally skipped when its value is `-1` (line 142). -/
def tftp_send_oack (blocksize : Option Nat) (tsize : Option Int) (wsize : Option Nat)
    (timeoutms : Option Nat) (rsize : Option Nat) (seek : Option Int) :
    List (String × Int) :=
  (match blocksize with
   | some b => [("blksize", (b : Int))]
   | none => []) ++
  (match timeoutms with
   | some t => [("timeoutms", (t : Int))]
   | none => []) ++
  (match tsize with
   | some t => if t ≠ -1 then [("tsize", t)] else []
   | none => []) ++
  (match wsize with
   | some w => [("wsize", (w : Int))]
   | none => []) ++
  (match rsize with
   | some r => [("rsize", (r : Int))]
   | none => []) ++
  (match seek with
   | some s => [("seek", s)]
   | none => [])

/-- Everything a request handler emits: an ERROR packet, an OACK packet,
DATA packets as `(wire block, payload length)` pairs, and the client it
inserted into its registry (`list_add`, lines 322 and 404), if any. -/
structure SetupOutput where
  sentError : Option (Nat × String)
  sentOack : Option (List (String × Int))
  sentData : List (Nat × Nat)
  registered : Option tftp_client
  deriving DecidableEq

/-- `handle_rrq` (lines 244-334).  `opts = some l` means option bytes
followed the mode string (`do_oack = true`); `openResult = some fileLen`
means `translate_open(filename, O_RDONLY)` succeeded on a file of
`fileLen` bytes, `none` that it failed.  Socket creation and `connect`
are taken to succeed (their failure paths return before the file is
opened).  On open failure the handler sends `Error(1, "file not found")`
on the new transfer socket and registers nothing (lines 298-303).
If `tsize` was requested it is replaced by the `fstat` size (lines
305-308).  With options present an OACK is sent where `tsize`, `wsize`,
`rsize` and `seek` pointers are passed only when the value is nonzero
(lines 324-330); otherwise `tftp_send_data(client, 1, 0, 0)` sends the
first block (line 332). -/
def handle_rrq (node port : Nat) (mode : String)
    (opts : Option (List (String × Nat))) (openResult : Option Nat) : SetupOutput :=
  if mode_is_octet mode then
    let r : ReqOptions := match opts with
      | some l => parse_options l
      | none => defaultReqOptions
    match openResult with
    | none => ⟨some (1, "file not found"), none, [], none⟩
    | some fileLen =>
      let tsize : Int := if r.tsize ≠ -1 then (fileLen : Int) else r.tsize
      let c : tftp_client :=
        ⟨node, port, r.blksize, r.rsize, r.wsize, r.timeoutms, r.seek⟩
      match opts with
      | some _ =>
        ⟨none,
         some (tftp_send_oack (some r.blksize)
           (if tsize ≠ 0 then some tsize else none)
           (if r.wsize ≠ 0 then some r.wsize else none)
           (some r.timeoutms)
           (if r.rsize ≠ 0 then some r.rsize else none)
           (if r.seek ≠ 0 then some ((r.seek : Int)) else none)),
         [], some c⟩
      | none =>
        match tftp_send_data r.blksize fileLen 1 0 0 with
        | none => ⟨none, none, [], some c⟩
        | some (wire, payload, _) => ⟨none, none, [(wire, payload)], some c⟩
  else
    ⟨none, none, [], none⟩

/-- `handle_wrq` (lines 336-416).  The file is opened before the socket;
on open failure the handler returns silently, sending nothing and
registering nothing (lines 371-376).  Unlike `handle_rrq` there is no
`fstat`, so the OACK echoes the client's own `tsize` value.  The
optionless branch calls `tftp_send_data(client, 1, 0, 0)` (line 414) on
the `O_WRONLY` descriptor, whose `pread` fails, so no DATA packet goes
out. -/
def handle_wrq (node port : Nat) (mode : String)
    (opts : Option (List (String × Nat))) (openOk : Bool) : SetupOutput :=
  if mode_is_octet mode then
    let r : ReqOptions := match opts with
      | some l => parse_options l
      | none => defaultReqOptions
    if openOk then
      let c : tftp_client :=
        ⟨node, port, r.blksize, r.rsize, r.wsize, r.timeoutms, r.seek⟩
      match opts with
      | some _ =>
        ⟨none,
         some (tftp_send_oack (some r.blksize)
           (if r.tsize ≠ 0 then some r.tsize else none)
           (if r.wsize ≠ 0 then some r.wsize else none)
           (some r.timeoutms)
           (if r.rsize ≠ 0 then some r.rsize else none)
           (if r.seek ≠ 0 then some ((r.seek : Int)) else none)),
         [], some c⟩
      | none => ⟨none, none, [], some c⟩
    else
      ⟨none, none, [], none⟩
  else
    ⟨none, none, [], none⟩

/-- A decoded packet arriving on a reader's transfer socket. -/
inductive ReaderPacket where
  | ack (block : Nat) : ReaderPacket
  | err (code : Nat) : ReaderPacket
  | other (opcode : Nat) : ReaderPacket
  deriving DecidableEq

/-- A datagram on a reader's transfer socket: source address plus decoded
packet.  `ack` blocks are the parsed 16-bit field, hence `< 65536`. -/
structure ReaderDatagram where
  srcNode : Nat
  srcPort : Nat
  pkt : ReaderPacket
  deriving DecidableEq

/-- The window loop of `handle_reader` (lines 468-487), iterating `w`
times from `block` (in the source: `for (block = last; block < last +
wsize; block++)`, with `block` a 16-bit counter; transfers stay below the
65536 wrap).  Each iteration sends block `block + 1` at file offset
`seek + block * blksize`; the payload is capped to `rsize % blksize` when
`(block + 1) * blksize > rsize` (lines 471-473).  The loop breaks when
the send fails (`n < 0`, line 477), when the send return is 0 (line 482:
`n` is the `send` return of at least 4, so this check never fires), and
after the rsize-capped block (lines 484-486).  Returns the `(wire block,
payload)` pairs sent, in order. -/
def readerLoop (c : tftp_client) (fileLen : Nat) : Nat → Nat → List (Nat × Nat)
  | _, 0 => []
  | block, w + 1 =>
    let offset := c.seek + block * c.blksize
    let response_size :=
      if (block + 1) * c.blksize > c.rsize then c.rsize % c.blksize else 0
    match tftp_send_data c.blksize fileLen (block + 1) offset response_size with
    | none => []
    | some (wire, payload, ret) =>
      (wire, payload) ::
        (if ret = 0 then []
         else if (block + 1) * c.blksize > c.rsize then []
         else readerLoop c fileLen (block + 1) w)

/-- `handle_reader` (lines 418-490).  Returns the C status and the DATA
packets sent.  A datagram whose source differs from the client's peer
address returns `-1` (lines 439-444), as do ERROR packets and unexpected
opcodes (lines 447-459).  An ACK for `last` returns 0 immediately when
`last * blksize > rsize` (lines 464-466) and otherwise runs the window
loop and returns 1. -/
def handle_reader (c : tftp_client) (fileLen : Nat) (d : ReaderDatagram) :
    Int × List (Nat × Nat) :=
  if d.srcNode ≠ c.sq_node ∨ d.srcPort ≠ c.sq_port then
    (-1, [])
  else
    match d.pkt with
    | .err _ => (-1, [])
    | .other _ => (-1, [])
    | .ack last =>
      if last * c.blksize > c.rsize then
        (0, [])
      else
        (1, readerLoop c fileLen last c.wsize)

/-- A datagram on a writer's transfer socket.  `rawLen` is the length of
the datagram on the wire; `opcode` and `block` are the first two 16-bit
fields. -/
structure WriterDatagram where
  srcNode : Nat
  srcPort : Nat
  opcode : Nat
  block : Nat
  rawLen : Nat
  deriving DecidableEq

/-- Everything one `handle_writer` call produces: the C status, the ACK
sent (its block field), the ERROR sent, and the bytes appended to the
file. -/
structure WriterOutput where
  status : Int
  sentAck : Option Nat
  sentError : Option (Nat × String)
  bytesWritten : Nat
  deriving DecidableEq

/-- `handle_writer` (lines 492-537).  The receive buffer is 516 bytes
(line 497), so `recvfrom` delivers `min rawLen 516` bytes of the
datagram.  Source mismatch returns `-1` silently (lines 512-515); a
non-DATA opcode sends `Error(4, "Expected DATA opcode")` and returns `-1`
(lines 519-523).  Otherwise `payload = len - 4` bytes are appended to the
file (`write`, line 527), `Ack(block)` is sent (line 534), and the status
is 1 when `payload == 512`, else 0 (line 536).  A datagram shorter than 4
bytes makes `len - 4` wrap as `size_t`, the oversized `write` fails, and
the handler returns `-1` (lines 528-532); that corner is the `len < 4`
branch here. -/
def handle_writer (c : tftp_client) (d : WriterDatagram) : WriterOutput :=
  let len := min d.rawLen 516
  if d.srcNode ≠ c.sq_node ∨ d.srcPort ≠ c.sq_port then
    ⟨-1, none, none, 0⟩
  else if d.opcode ≠ OP_DATA then
    ⟨-1, none, some (4, "Expected DATA opcode"), 0⟩
  else if len < 4 then
    ⟨-1, none, none, 0⟩
  else
    let payload := len - 4
    ⟨if payload = 512 then 1 else 0, some d.block, none, payload⟩

/-- The main loop's reap rule (lines 601-615): after a reader or writer
handler returns `ret`, `client_close_and_free` removes the client from
its registry and closes its socket and file exactly when `ret ≤ 0`. -/
def client_still_registered (ret : Int) : Bool :=
  if ret ≤ 0 then false else true

/-- Block number of the last packet in a sent list (what a lock-step
client acknowledges). -/
def lastBlock : List (Nat × Nat) → Nat
  | [] => 0
  | [p] => p.1
  | _ :: rest => lastBlock rest

/-- Runs a whole read transfer against a well-behaved lock-step client
that acknowledges the highest block it received, starting from
`Ack(lastAck)`.  Returns all DATA packets the server sent in response to
acknowledgements and whether the server reached a terminal status
(client reaped by the main loop).  `fuel` bounds the number of rounds. -/
def runReader (c : tftp_client) (fileLen : Nat) : Nat → Nat → List (Nat × Nat) × Bool
  | 0, _ => ([], false)
  | fuel + 1, lastAck =>
    let r := handle_reader c fileLen ⟨c.sq_node, c.sq_port, .ack lastAck⟩
    if r.1 ≤ 0 then
      ([], true)
    else
      match r.2 with
      | [] => ([], false)
      | p :: rest =>
        let next := runReader c fileLen fuel (lastBlock (p :: rest))
        (p :: (rest ++ next.1), next.2)

/-- Total payload bytes across a list of sent DATA packets. -/
def totalPayload (l : List (Nat × Nat)) : Nat :=
  (l.map Prod.snd).sum

/-- Membership in a conditional singleton list. -/
lemma mem_ite_singleton {α : Type} (c : Prop) [Decidable c] (a b : α) :
    (a ∈ (if c then [b] else [])) ↔ c ∧ a = b := by
  split
  · simp_all
  · simp_all

/-- The OACK list built the way both request handlers build it — `blksize`
and `timeoutms` pointers always passed, `tsize`, `wsize`, `rsize`, `seek`
pointers only when the value is nonzero — written as one flat conditional
list. -/
lemma oack_shape_eq (B M : Nat) (T : Int) (W R S : Nat) :
    tftp_send_oack (some B) (if T ≠ 0 then some T else none)
        (if W ≠ 0 then some W else none) (some M)
        (if R ≠ 0 then some R else none)
        (if S ≠ 0 then some ((S : Int)) else none) =
      [("blksize", (B : Int)), ("timeoutms", (M : Int))] ++
        (if T ≠ 0 ∧ T ≠ -1 then [("tsize", T)] else []) ++
        (if W ≠ 0 then [("wsize", (W : Int))] else []) ++
        (if R ≠ 0 then [("rsize", (R : Int))] else []) ++
        (if S ≠ 0 then [("seek", (S : Int))] else []) := by
  unfold tftp_send_oack
  by_cases hT0 : T = 0 <;> by_cases hT1 : T = -1 <;> by_cases hW : W = 0 <;>
    by_cases hR : R = 0 <;> by_cases hS : S = 0 <;>
    simp [hT0, hT1, hW, hR, hS]

/-- Claim C1, evaluated at a failing input.  The claim says a read whose
request left `rsize = 0` (the default) delivers the full file and is not
terminated merely because an Ack with block number ≥ 1 arrived.  The code
disagrees: an optionless RRQ for a 2000-byte file sends only block 1 (512
bytes) at request time, and the completion test `last * blksize > rsize`
(line 465) fires on `Ack(1)` because `512 > 0`, so `handle_reader` returns
0 and the main loop reaps the client with 1488 bytes never delivered. -/
theorem c1_rsize_zero_first_ack_terminates :
    (handle_rrq 1 2 "octet" none (some 2000)).sentData = [(1, 512)] ∧
    (handle_rrq 1 2 "octet" none (some 2000)).registered =
      some ⟨1, 2, 512, 0, 0, 1000, 0⟩ ∧
    handle_reader ⟨1, 2, 512, 0, 0, 1000, 0⟩ 2000 ⟨1, 2, .ack 1⟩ = (0, []) ∧
    client_still_registered 0 = false :=
  ⟨rfl, rfl, rfl, rfl⟩

/-- Claim C2, evaluated at a failing input.  The claim says a packet from
the wrong source address is discarded with the transfer state unchanged
and the client still registered.  The code does send nothing in response,
but both handlers return `-1` for such a packet (lines 439-444, 512-515),
and the main loop reaps any client whose handler returned ≤ 0
(lines 601-615), so the spoofed packet destroys the transfer. -/
theorem c2_spoofed_packet_reaps_client :
    handle_reader ⟨1, 2, 512, 1000, 1, 1000, 0⟩ 100 ⟨1, 3, .ack 1⟩ = (-1, []) ∧
    handle_writer ⟨1, 2, 512, 0, 0, 1000, 0⟩ ⟨1, 3, OP_DATA, 1, 100⟩ =
      ⟨-1, none, none, 0⟩ ∧
    client_still_registered (-1) = false :=
  ⟨rfl, rfl, rfl⟩

/-- Claim C3, evaluated at a failing input.  The claim says `Ack(n)` is
terminal exactly when `rsize > 0` and `n * blksize ≥ rsize`, so in
particular `n * blksize = rsize` is terminal.  The code's test is strict
(`last * blksize > rsize`, line 465): with `blksize = rsize = 512` and a
1024-byte file, `Ack(1)` is not terminal — the handler returns 1, the
client stays registered, and a further `Data(2)` with 512 payload bytes is
sent.  (The other direction of the "exactly when" fails too: with
`rsize = 0` the code is terminal on any `Ack(n ≥ 1)`, see the claim C1
theorem.) -/
theorem c3_ack_at_exact_rsize_not_terminal :
    handle_reader ⟨1, 2, 512, 512, 1, 1000, 0⟩ 1024 ⟨1, 2, .ack 1⟩ =
      (1, [(2, 512)]) ∧
    client_still_registered 1 = true :=
  ⟨rfl, rfl⟩

/-- Claim C4, evaluated at a failing input.  The claim says that with
`rsize > 0` the total payload delivered is exactly `rsize` and the final
block carries `rsize mod blksize` bytes (0 included).  When `rsize` is a
multiple of `blksize` the cap `rsize % blksize` computed on line 473 is 0,
which `tftp_send_data` treats as "no cap" (line 82), so a full extra block
of file data is sent past `rsize`: a complete transfer with
`blksize = rsize = 512` against a 1024-byte file delivers blocks
`(1, 512), (2, 512)` — 1024 payload bytes, twice `rsize`, with a 512-byte
final block instead of the 0-byte one the claim requires. -/
theorem c4_rsize_multiple_of_blksize_overshoots :
    runReader ⟨1, 2, 512, 512, 1, 1000, 0⟩ 1024 10 0 =
      ([(1, 512), (2, 512)], true) ∧
    totalPayload [(1, 512), (2, 512)] = 1024 :=
  ⟨rfl, rfl⟩

/-- Claim C5, evaluated at a failing input.  The claim says the window
size defaults to 1 and one data block answers each Ack.  In the code the
default is `wsize = 0` (line 255), and the window loop
`for (block = last; block < last + wsize; block++)` then runs zero times:
an RRQ carrying only `rsize = 2000` registers a client with `wsize = 0`,
and its `Ack(0)` produces no data block at all (the handler returns 1 with
nothing sent). -/
theorem c5_default_wsize_zero_sends_nothing :
    (handle_rrq 1 2 "octet" (some [("rsize", 2000)]) (some 5000)).registered =
      some ⟨1, 2, 512, 2000, 0, 1000, 0⟩ ∧
    handle_reader ⟨1, 2, 512, 2000, 0, 1000, 0⟩ 5000 ⟨1, 2, .ack 0⟩ = (1, []) :=
  ⟨rfl, rfl⟩

/-- Claim C6, evaluated at a failing input.  The claim says the window
stops early at a zero-byte file read, so `Ack(n)` produces
`min(W, blocks_remaining)` data packets.  The code's zero check (line 482)
tests the `send` return value, which is at least 4 (header included), so
end-of-file never stops the window: with `blksize = 512`, `wsize = 4`,
`rsize = 4096` and a 100-byte file, `Ack(0)` produces four packets — the
100-byte block 1 followed by three empty blocks padding the window —
instead of stopping after the first (or the first empty) block. -/
theorem c6_window_padded_past_eof :
    handle_reader ⟨1, 2, 512, 4096, 4, 1000, 0⟩ 100 ⟨1, 2, .ack 0⟩ =
      (1, [(1, 100), (2, 0), (3, 0), (4, 0)]) :=
  rfl

/-- Claim C7 (confirmed): for every writer — whatever its negotiated
`blksize` — a Data packet carrying `p ≤ 512` payload bytes is acknowledged
with `Ack(block)`, its `p` bytes are appended to the file, and the handler
completes the transfer (status 0, main loop reaps the client) exactly when
`p < 512`, while `p = 512` continues the transfer (status 1).  The
threshold is the literal 512 of line 536, independent of `c.blksize`. -/
theorem c7_writer_termination_threshold_512 (c : tftp_client) (block p : Nat)
    (hp : p ≤ 512) :
    (handle_writer c ⟨c.sq_node, c.sq_port, OP_DATA, block, p + 4⟩).sentAck =
      some block ∧
    (handle_writer c ⟨c.sq_node, c.sq_port, OP_DATA, block, p + 4⟩).sentError =
      none ∧
    (handle_writer c ⟨c.sq_node, c.sq_port, OP_DATA, block, p + 4⟩).bytesWritten =
      p ∧
    (handle_writer c ⟨c.sq_node, c.sq_port, OP_DATA, block, p + 4⟩).status =
      (if p = 512 then 1 else 0) ∧
    (client_still_registered
        (handle_writer c ⟨c.sq_node, c.sq_port, OP_DATA, block, p + 4⟩).status =
          false ↔ p < 512) := by
  have hmin : min (p + 4) 516 = p + 4 := by omega
  by_cases h : p = 512
  · subst h
    simp [handle_writer, hmin, client_still_registered, OP_DATA]
  · have hlt : p < 512 := by omega
    simp [handle_writer, hmin, client_still_registered, OP_DATA, h, hlt]

/-- Witness for the claim C7 theorem at a concrete input: a writer with
`blksize = 8` receiving a 100-byte-payload Data packet. -/
theorem c7_writer_termination_threshold_512_witness :
    (100 : Nat) ≤ 512 ∧
    ((handle_writer ⟨1, 2, 8, 0, 0, 1000, 0⟩ ⟨1, 2, OP_DATA, 7, 100 + 4⟩).sentAck =
      some 7 ∧
    (handle_writer ⟨1, 2, 8, 0, 0, 1000, 0⟩ ⟨1, 2, OP_DATA, 7, 100 + 4⟩).sentError =
      none ∧
    (handle_writer ⟨1, 2, 8, 0, 0, 1000, 0⟩ ⟨1, 2, OP_DATA, 7, 100 + 4⟩).bytesWritten =
      100 ∧
    (handle_writer ⟨1, 2, 8, 0, 0, 1000, 0⟩ ⟨1, 2, OP_DATA, 7, 100 + 4⟩).status =
      (if (100 : Nat) = 512 then 1 else 0) ∧
    (client_still_registered
        (handle_writer ⟨1, 2, 8, 0, 0, 1000, 0⟩ ⟨1, 2, OP_DATA, 7, 100 + 4⟩).status =
          false ↔ (100 : Nat) < 512)) :=
  ⟨by decide, c7_writer_termination_threshold_512 ⟨1, 2, 8, 0, 0, 1000, 0⟩ 7 100
    (by decide)⟩

/-- Claim C8 (confirmed): for every octet-mode RRQ whose `translate_open`
fails, the server sends `Error(1, "file not found")` on the newly created
transfer socket and registers no client (lines 298-303); for every
octet-mode WRQ whose open fails, it sends nothing at all and registers no
client (lines 371-376).  This holds for any requesting peer and any option
list. -/
theorem c8_open_failure_rrq_error_wrq_silent (node port : Nat)
    (opts : Option (List (String × Nat))) :
    handle_rrq node port "octet" opts none =
      ⟨some (1, "file not found"), none, [], none⟩ ∧
    handle_wrq node port "octet" opts false = ⟨none, none, [], none⟩ :=
  ⟨rfl, rfl⟩

/-- Claim C10 (confirmed): the writer's receive buffer is 516 bytes, so
at most `min rawLen 516 - 4 ≤ 512` payload bytes are ever appended to the
file regardless of the negotiated `blksize`, and a datagram longer than
516 bytes is silently truncated to a 512-byte payload, which also makes
it look like a non-final block (status 1, transfer continues). -/
theorem c10_writer_payload_capped_at_512 (c : tftp_client) (block rawLen : Nat)
    (h4 : 4 ≤ rawLen) :
    (handle_writer c ⟨c.sq_node, c.sq_port, OP_DATA, block, rawLen⟩).bytesWritten =
      min rawLen 516 - 4 ∧
    (handle_writer c ⟨c.sq_node, c.sq_port, OP_DATA, block, rawLen⟩).bytesWritten ≤
      512 ∧
    (516 < rawLen →
      (handle_writer c ⟨c.sq_node, c.sq_port, OP_DATA, block, rawLen⟩).bytesWritten =
        512 ∧
      (handle_writer c ⟨c.sq_node, c.sq_port, OP_DATA, block, rawLen⟩).status = 1) := by
  have hnot : ¬ min rawLen 516 < 4 := by omega
  refine ⟨?_, ?_, ?_⟩
  · simp [handle_writer, hnot, OP_DATA]
  · simp only [handle_writer, OP_DATA]
    simp [hnot]
  · intro h
    have hmin : min rawLen 516 = 516 := by omega
    simp [handle_writer, hnot, OP_DATA, hmin]

/-- Witness for the claim C10 theorem at a concrete input: a writer with
`blksize = 8192` receiving a 1000-byte datagram. -/
theorem c10_writer_payload_capped_at_512_witness :
    (4 : Nat) ≤ 1000 ∧
    ((handle_writer ⟨1, 2, 8192, 0, 0, 1000, 0⟩ ⟨1, 2, OP_DATA, 3, 1000⟩).bytesWritten =
      min 1000 516 - 4 ∧
    (handle_writer ⟨1, 2, 8192, 0, 0, 1000, 0⟩ ⟨1, 2, OP_DATA, 3, 1000⟩).bytesWritten ≤
      512 ∧
    (516 < 1000 →
      (handle_writer ⟨1, 2, 8192, 0, 0, 1000, 0⟩ ⟨1, 2, OP_DATA, 3, 1000⟩).bytesWritten =
        512 ∧
      (handle_writer ⟨1, 2, 8192, 0, 0, 1000, 0⟩ ⟨1, 2, OP_DATA, 3, 1000⟩).status = 1)) :=
  ⟨by decide, c10_writer_payload_capped_at_512 ⟨1, 2, 8192, 0, 0, 1000, 0⟩ 3 1000
    (by decide)⟩

/-- Claim C9, counterexample.  The claim says the OptionAck never contains
an option that was not a recognized option of the request.  For an RRQ
carrying only `rsize = 20`, the OACK nevertheless lists `blksize = 512`
and `timeoutms = 1000`: the `blocksize` and `timeoutms` pointers are
always passed to `tftp_send_oack` (lines 325 and 328). -/
theorem c9_oack_lists_unrequested_options :
    (handle_rrq 1 2 "octet" (some [("rsize", 20)]) (some 100)).sentOack =
      some [("blksize", 512), ("timeoutms", 1000), ("rsize", 20)] ∧
    (∀ v : Nat, ("blksize", v) ∉ [(("rsize" : String), (20 : Nat))]) ∧
    (∀ v : Nat, ("timeoutms", v) ∉ [(("rsize" : String), (20 : Nat))]) := by
  refine ⟨rfl, ?_, ?_⟩ <;> intro v <;> simp

/-- Claim C9 (amended): the OptionAck of an option-carrying octet RRQ or
WRQ always contains `blksize` and `timeoutms` with the server's values
(the request's if present, else the defaults 512 and 1000) even when the
request did not carry them; it contains `wsize`, `rsize` and `seek`
exactly when the parsed value is nonzero, echoing that value; it contains
`tsize` exactly when `tsize` was requested and — for an RRQ — the file
size is nonzero (echoing the file size), or — for a WRQ — the requested
value is nonzero (echoing it); and it never contains an option outside
the six recognized names, in particular no unknown option of the
request. -/
theorem c9_oack_membership (node port fileLen : Nat) (opts : List (String × Nat)) :
    (∃ l, (handle_rrq node port "octet" (some opts) (some fileLen)).sentOack =
        some l ∧
      ("blksize", ((parse_options opts).blksize : Int)) ∈ l ∧
      ("timeoutms", ((parse_options opts).timeoutms : Int)) ∈ l ∧
      ((∃ v, ("tsize", v) ∈ l) ↔
        ((parse_options opts).tsize ≠ -1 ∧ fileLen ≠ 0)) ∧
      (∀ v, ("tsize", v) ∈ l → v = (fileLen : Int)) ∧
      ((∃ v, ("wsize", v) ∈ l) ↔ (parse_options opts).wsize ≠ 0) ∧
      (∀ v, ("wsize", v) ∈ l → v = ((parse_options opts).wsize : Int)) ∧
      ((∃ v, ("rsize", v) ∈ l) ↔ (parse_options opts).rsize ≠ 0) ∧
      (∀ v, ("rsize", v) ∈ l → v = ((parse_options opts).rsize : Int)) ∧
      ((∃ v, ("seek", v) ∈ l) ↔ (parse_options opts).seek ≠ 0) ∧
      (∀ v, ("seek", v) ∈ l → v = ((parse_options opts).seek : Int)) ∧
      (∀ kv ∈ l, kv.1 = "blksize" ∨ kv.1 = "timeoutms" ∨ kv.1 = "tsize" ∨
        kv.1 = "wsize" ∨ kv.1 = "rsize" ∨ kv.1 = "seek")) ∧
    (∃ l, (handle_wrq node port "octet" (some opts) true).sentOack = some l ∧
      ("blksize", ((parse_options opts).blksize : Int)) ∈ l ∧
      ("timeoutms", ((parse_options opts).timeoutms : Int)) ∈ l ∧
      ((∃ v, ("tsize", v) ∈ l) ↔
        ((parse_options opts).tsize ≠ 0 ∧ (parse_options opts).tsize ≠ -1)) ∧
      (∀ v, ("tsize", v) ∈ l → v = (parse_options opts).tsize) ∧
      ((∃ v, ("wsize", v) ∈ l) ↔ (parse_options opts).wsize ≠ 0) ∧
      (∀ v, ("wsize", v) ∈ l → v = ((parse_options opts).wsize : Int)) ∧
      ((∃ v, ("rsize", v) ∈ l) ↔ (parse_options opts).rsize ≠ 0) ∧
      (∀ v, ("rsize", v) ∈ l → v = ((parse_options opts).rsize : Int)) ∧
      ((∃ v, ("seek", v) ∈ l) ↔ (parse_options opts).seek ≠ 0) ∧
      (∀ v, ("seek", v) ∈ l → v = ((parse_options opts).seek : Int)) ∧
      (∀ kv ∈ l, kv.1 = "blksize" ∨ kv.1 = "timeoutms" ∨ kv.1 = "tsize" ∨
        kv.1 = "wsize" ∨ kv.1 = "rsize" ∨ kv.1 = "seek")) := by
  constructor
  · refine ⟨_, rfl, ?_⟩
    rw [oack_shape_eq]
    refine ⟨by simp, by simp, ?_, ?_, ?_, ?_, ?_, ?_, ?_, ?_, ?_⟩
    · simp only [List.mem_append, List.mem_cons, List.mem_singleton,
        mem_ite_singleton, Prod.mk.injEq]
      by_cases hts : (parse_options opts).tsize = -1
      · simp [hts]
      · simp [hts]
    · intro v hv
      simp only [List.mem_append, List.mem_cons, List.mem_singleton,
        mem_ite_singleton, Prod.mk.injEq] at hv
      by_cases hts : (parse_options opts).tsize = -1
      · simp [hts] at hv
      · simp [hts] at hv
        omega
    · simp [mem_ite_singleton]
    · intro v hv
      simp [mem_ite_singleton] at hv
      omega
    · simp [mem_ite_singleton]
    · intro v hv
      simp [mem_ite_singleton] at hv
      omega
    · simp [mem_ite_singleton]
    · intro v hv
      simp [mem_ite_singleton] at hv
      omega
    · rintro ⟨k, v⟩ hv
      simp only [List.mem_append, List.mem_cons, List.mem_singleton,
        mem_ite_singleton, Prod.mk.injEq] at hv
      tauto
  · refine ⟨_, rfl, ?_⟩
    rw [oack_shape_eq]
    refine ⟨by simp, by simp, ?_, ?_, ?_, ?_, ?_, ?_, ?_, ?_, ?_⟩
    · simp [mem_ite_singleton]
    · intro v hv
      simp [mem_ite_singleton] at hv
      omega
    · simp [mem_ite_singleton]
    · intro v hv
      simp [mem_ite_singleton] at hv
      omega
    · simp [mem_ite_singleton]
    · intro v hv
      simp [mem_ite_singleton] at hv
      omega
    · simp [mem_ite_singleton]
    · intro v hv
      simp [mem_ite_singleton] at hv
      omega
    · rintro ⟨k, v⟩ hv
      simp only [List.mem_append, List.mem_cons, List.mem_singleton,
        mem_ite_singleton, Prod.mk.injEq] at hv
      tauto

end Tqftpserv
